import Mathlib

/-!
Shallow embedding of `src/build.js` of gatsby-parallel-runner: the job
dispatcher that forwards Gatsby `JOB_CREATED` messages to a worker pool over
pub/sub, correlates worker responses back through the in-memory map
`jobsInProcess`, enforces a 60 s timeout per dispatched job, and picks the
transport (direct publish vs. blob-store staging) by serialized payload size.

Modelling conventions:
* The JS `Map` `jobsInProcess` is an association list `Table` with
  `mapHas` / `mapGet` / `mapSet` / `mapDelete` mirroring `has` / `get` /
  `set` / `delete` (`set` overwrites in place, `delete` removes the key).
* The completion callback installed by `processImage` (build.js line 133) is a
  closure over `msg.id`, the input file path and `msg.outputDir`; the `Entry`
  structure records exactly those captured values.
* Asynchronous I/O results that the code awaits are inputs of the model:
  `DispatchEnv.readOk` is whether `fs.readFile` resolves, `envelopeSize` is
  the byte length of `Buffer.from(JSON.stringify(\x7bfile, action, topic, id\x7d))`
  (the bytes themselves are not modelled, only the length the code branches
  on), and `sendOk` is whether the publish / blob save inside the `try`
  resolves.  Whether the finalization writes in the completion callback
  succeed is the `finalizeOk` input of `pubsubMessageHandler`.
* A JavaScript exception thrown by the translated code (not caught by it) is
  an `Except.error` carrying the description of the thrown error.  In
  particular `msg.inputPaths[0].path` on an empty array throws a `TypeError`,
  and the reference to the undeclared identifier `JOB_NOT_WHITELISTED`
  (build.js line 102) throws a `ReferenceError`.
* Producer-visible outcomes (`gatsbyProcess.send`) are collected in order in
  a `List ProducerMsg`; completed transport operations are collected in a
  `List TransportAction`; timers armed by `setTimeout` are pairs
  `(id, file)` of the values the timeout closure captures.
-/

namespace Build

/-- `MAX_JOB_TIME` (build.js line 28): 60 seconds timeout. -/
def MAX_JOB_TIME : Nat := 60000

/-- `MAX_PUB_SUB_SIZE` (build.js line 29): 5 Megabyte. -/
def MAX_PUB_SUB_SIZE : Nat := 1024 * 1024 * 5

/-- `bucketName` (build.js line 46): `event-processing-` followed by the
worker topic from the environment. -/
def bucketName (workerTopic : String) : String :=
  "event-processing-" ++ workerTopic

/-- One element of `msg.inputPaths`. -/
structure InputPath where
  path : String
deriving Repr, DecidableEq

/-- The payload of a Gatsby `JOB_CREATED` message, as `processImage` reads
it.  `inputPaths = none` models an absent (`undefined`/`null`) field, which
is falsy in the `!msg.inputPaths` test; a present array, even the empty one,
is truthy. -/
structure JobPayload where
  id : String
  name : String
  inputPaths : Option (List InputPath)
  outputDir : String
  args : String
deriving Repr, DecidableEq

/-- The values captured by the completion callback that `processImage`
stores in `jobsInProcess` (build.js lines 133-152): the job id, the input
file path and the output directory. -/
structure Entry where
  id : String
  file : String
  outputDir : String
deriving Repr, DecidableEq

/-- The correlation table `jobsInProcess`, a JS `Map` from job id to the
stored completion callback. -/
abbrev Table : Type := List (String × Entry)

/-- `jobsInProcess.has(k)`. -/
def mapHas (m : Table) (k : String) : Bool :=
  m.any (fun p => p.1 == k)

/-- `jobsInProcess.get(k)`. -/
def mapGet (m : Table) (k : String) : Option Entry :=
  (m.find? (fun p => p.1 == k)).map (fun p => p.2)

/-- `jobsInProcess.set(k, v)`: JS `Map.set` semantics — a `Map` holds at
most one entry per key, so `set` replaces the value stored at `k` in place
when the key is present and appends a new binding otherwise. -/
def mapSet (m : Table) (k : String) (v : Entry) : Table :=
  match m with
  | [] => [(k, v)]
  | p :: t => if p.1 == k then (k, v) :: t else p :: mapSet t k v

/-- `jobsInProcess.delete(k)`. -/
def mapDelete (m : Table) (k : String) : Table :=
  m.filter (fun p => !(p.1 == k))

/-- One transform object inside a worker `JOB_COMPLETED` payload's
`output` array. -/
structure Transform where
  outputPath : String
  data : String
  args : String
deriving Repr, DecidableEq

/-- A message sent to `gatsbyProcess` (producer-visible outcome).
`jobCompleted` carries the `(outputPath, args)` projection that the
completion callback builds from `result.output` (build.js line 145). -/
inductive ProducerMsg where
  | jobCompleted (id : String) (output : List (String × String))
  | jobFailed (id : String) (error : String)
deriving Repr, DecidableEq

/-- A completed transport operation: a direct publish of the serialized
envelope to the worker topic, or a save of its base64 encoding to the
blob-store bucket (build.js lines 160-166). -/
inductive TransportAction where
  | publish (topic : String) (size : Nat)
  | blobSave (bucket : String) (key : String)
deriving Repr, DecidableEq

/-- The size-based transport choice of build.js lines 160-166: publish the
serialized message directly when its length is strictly below
`MAX_PUB_SUB_SIZE`, otherwise save it (base64-encoded) to the blob store
under the bucket `bucketName workerTopic` and the object key
`event-` followed by the job id. -/
def sendEnvelope (workerTopic : String) (jobId : String) (size : Nat) :
    TransportAction :=
  if size < MAX_PUB_SUB_SIZE then
    .publish workerTopic size
  else
    .blobSave (bucketName workerTopic) ("event-" ++ jobId)

/-- The awaited-I/O inputs of one `processImage` call (see the module
docstring). -/
structure DispatchEnv where
  readOk : Bool
  envelopeSize : Nat
  sendOk : Bool
deriving Repr, DecidableEq

/-- What one dispatcher step produced: the new correlation table, the
messages sent to the producer, the completed transport operations, and the
timers armed by `setTimeout` (each recording the captured `(id, file)`). -/
structure DispatchResult where
  table : Table
  sends : List ProducerMsg
  actions : List TransportAction
  timers : List (String × String)
deriving Repr, DecidableEq

/-- `processImage` (build.js lines 118-185).

* `!msg.inputPaths || msg.inputPaths.length > 1`: report
  `JOB_FAILED` with error `Wrong number of input paths` and return — no
  table entry, no transport action, no timer.
* Otherwise read `msg.inputPaths[0].path`: on an empty array this throws a
  `TypeError` (index 0 is `undefined`), modelled as `Except.error`.
* `fs.readFile` rejection is not caught by `processImage` (the `try` starts
  only at line 153), so it is an `Except.error` as well.
* On a successful read the completion callback is stored with
  `jobsInProcess.set` (line 133), then inside the `try` the envelope is sent
  via the size-based choice and the timeout is armed; if the send rejects,
  the `catch` only logs — no producer message, no timer, and the table entry
  installed before the `try` stays. -/
def processImage (workerTopic : String) (msg : JobPayload) (env : DispatchEnv)
    (jobsInProcess : Table) : Except String DispatchResult :=
  match msg.inputPaths with
  | none =>
      .ok ⟨jobsInProcess, [.jobFailed msg.id "Wrong number of input paths"],
           [], []⟩
  | some inputPaths =>
      if inputPaths.length > 1 then
        .ok ⟨jobsInProcess, [.jobFailed msg.id "Wrong number of input paths"],
             [], []⟩
      else
        match inputPaths.head? with
        | none =>
            .error "TypeError: cannot read path of undefined"
        | some first =>
            let file := first.path
            if env.readOk then
              let tbl := mapSet jobsInProcess msg.id
                ⟨msg.id, file, msg.outputDir⟩
              if env.sendOk then
                .ok ⟨tbl, [],
                     [sendEnvelope workerTopic msg.id env.envelopeSize],
                     [(msg.id, file)]⟩
              else
                .ok ⟨tbl, [], [], []⟩
            else
              .error "readFile rejected"

/-- The completion callback stored by `processImage` (build.js lines
133-152), invoked with a worker `JOB_COMPLETED` payload.  When all output
writes resolve it sends `JOB_COMPLETED` with the `(outputPath, args)`
projection of `result.output` and then deletes the captured id from the
table; when a write rejects, the `catch` only logs — nothing is sent and
the entry is not deleted. -/
def imageJobCallback (e : Entry) (output : List Transform)
    (finalizeOk : Bool) (jobsInProcess : Table) : Table × List ProducerMsg :=
  if finalizeOk then
    (mapDelete jobsInProcess e.id,
     [.jobCompleted e.id (output.map (fun t => (t.outputPath, t.args)))])
  else
    (jobsInProcess, [])

/-- An inbound worker message, after base64/JSON decoding, classified by its
`type` field (build.js lines 52-70). -/
inductive WorkerMsg where
  | jobCompleted (id : String) (output : List Transform)
  | jobFailed (id : String) (error : String)
  | unknown (raw : String)
deriving Repr, DecidableEq

/-- `pubsubMessageHandler` (build.js lines 48-72).

* `JOB_COMPLETED`: when `jobsInProcess.has(id)`, the stored callback is
  looked up with `get` and invoked with the payload (this handler itself
  deletes nothing); otherwise nothing happens.
* `JOB_FAILED`: when the id is present, the entry is deleted and then the
  payload is forwarded to the producer as `JOB_FAILED`; otherwise nothing.
* any other `type`: `log.error` only. -/
def pubsubMessageHandler (wmsg : WorkerMsg) (finalizeOk : Bool)
    (jobsInProcess : Table) : Table × List ProducerMsg :=
  match wmsg with
  | .jobCompleted id output =>
      match mapGet jobsInProcess id with
      | some e => imageJobCallback e output finalizeOk jobsInProcess
      | none => (jobsInProcess, [])
  | .jobFailed id err =>
      if mapHas jobsInProcess id then
        (mapDelete jobsInProcess id, [.jobFailed id err])
      else
        (jobsInProcess, [])
  | .unknown _ => (jobsInProcess, [])

/-- The timeout closure armed by `setTimeout(..., MAX_JOB_TIME)` (build.js
lines 168-181), firing for the captured `(id, file)`: when the id is still
present the entry is deleted and then a `JOB_FAILED` naming the file is sent;
otherwise the firing is a no-op. -/
def timeoutHandler (id : String) (file : String) (jobsInProcess : Table) :
    Table × List ProducerMsg :=
  if mapHas jobsInProcess id then
    (mapDelete jobsInProcess id,
     [.jobFailed id ("File failed to process with timeout " ++ file)])
  else
    (jobsInProcess, [])

/-- An inbound message from `gatsbyProcess`, classified by `msg.type`
(build.js lines 94-116). -/
inductive GatsbyMsg where
  | jobCreated (payload : JobPayload)
  | logAction
  | other
deriving Repr, DecidableEq

/-- The `gatsbyProcess.on('message')` handler (build.js lines 94-116).  The
`JOB_TYPES` registry has the single key `IMAGE_PROCESSING` mapping to
`processImage`; for any other `msg.payload.name` the handler evaluates the
undeclared identifier `JOB_NOT_WHITELISTED` while building the reply, which
throws a `ReferenceError` before anything is sent.  `LOG_ACTION` and every
other message type do nothing. -/
def gatsbyMessageHandler (workerTopic : String) (msg : GatsbyMsg)
    (env : DispatchEnv) (jobsInProcess : Table) :
    Except String DispatchResult :=
  match msg with
  | .jobCreated payload =>
      if payload.name == "IMAGE_PROCESSING" then
        processImage workerTopic payload env jobsInProcess
      else
        .error "ReferenceError: JOB_NOT_WHITELISTED is not defined"
  | .logAction => .ok ⟨jobsInProcess, [], [], []⟩
  | .other => .ok ⟨jobsInProcess, [], [], []⟩

/-! ### Association-list lemmas about the `jobsInProcess` operations -/

/-- Deleting an id removes it: `has` is `false` immediately afterwards. -/
theorem mapHas_mapDelete (m : Table) (k : String) :
    mapHas (mapDelete m k) k = false := by
  induction m with
  | nil => rfl
  | cons p t ih =>
      by_cases h : p.1 == k <;> simp_all [mapDelete, mapHas]

/-- When `has` is `false`, `get` yields nothing. -/
theorem mapGet_eq_none (m : Table) (k : String) (h : mapHas m k = false) :
    mapGet m k = none := by
  induction m with
  | nil => rfl
  | cons p t ih =>
      simp only [mapHas, List.any_cons, Bool.or_eq_false_iff] at h
      unfold mapGet
      rw [List.find?_cons_of_neg]
      · exact ih h.2
      · simp [h.1]

/-- When `get` yields an entry, `has` is `true`. -/
theorem mapHas_of_mapGet (m : Table) (k : String) (e : Entry)
    (h : mapGet m k = some e) : mapHas m k = true := by
  cases hh : mapHas m k with
  | false => rw [mapGet_eq_none m k hh] at h; cases h
  | true => rfl

/-- After `set`, `get` returns the value just stored. -/
theorem mapGet_mapSet_self (m : Table) (k : String) (v : Entry) :
    mapGet (mapSet m k v) k = some v := by
  induction m with
  | nil => simp [mapSet, mapGet]
  | cons p t ih =>
      by_cases h : p.1 == k
      · simp [mapSet, mapGet, h]
      · unfold mapSet
        rw [if_neg (by simp [h])]
        unfold mapGet
        rw [List.find?_cons_of_neg]
        · exact ih
        · simp [h]

/-- After `set`, the key is present. -/
theorem mapHas_mapSet_self (m : Table) (k : String) (v : Entry) :
    mapHas (mapSet m k v) k = true :=
  mapHas_of_mapGet _ _ v (mapGet_mapSet_self m k v)

/-- Setting a key that is already present leaves the key sequence of the
table unchanged: the existing binding is replaced, nothing is added. -/
theorem keys_mapSet_of_has (m : Table) (k : String) (v : Entry)
    (h : mapHas m k = true) :
    (mapSet m k v).map Prod.fst = m.map Prod.fst := by
  induction m with
  | nil => simp [mapHas] at h
  | cons p t ih =>
      by_cases hp : p.1 == k
      · have hk : p.1 = k := eq_of_beq hp
        simp [mapSet, hp, hk]
      · have ht : mapHas t k = true := by
          simp only [mapHas, List.any_cons, hp, Bool.false_or] at h
          exact h
        simp [mapSet, hp, ih ht]

/-! ### Claim theorems -/

/-- Claim C10: for a job request whose `inputPaths` field is entirely absent
(`undefined`/`null`), `processImage` reports a `JOB_FAILED` outcome with the
error `Wrong number of input paths`, leaves the correlation table unchanged
(no entry created), sends nothing to the transport and arms no timer. -/
theorem c10_absent_inputs_failed (workerTopic : String) (msg : JobPayload)
    (env : DispatchEnv) (tbl : Table) (habs : msg.inputPaths = none) :
    processImage workerTopic msg env tbl =
      .ok ⟨tbl, [.jobFailed msg.id "Wrong number of input paths"], [], []⟩ := by
  unfold processImage
  rw [habs]

/-- Witness for C10 at a concrete absent-`inputPaths` request. -/
theorem c10_witness :
    processImage "wt" ⟨"a1", "IMAGE_PROCESSING", none, "out", "arg"⟩
        ⟨true, 10, true⟩ [] =
      .ok ⟨[], [.jobFailed "a1" "Wrong number of input paths"], [], []⟩ :=
  c10_absent_inputs_failed "wt" ⟨"a1", "IMAGE_PROCESSING", none, "out", "arg"⟩
    ⟨true, 10, true⟩ [] rfl

/-- Claim C2 (code bug): a request with `inputPaths = []` passes the
validation `!msg.inputPaths || msg.inputPaths.length > 1` (an empty array is
truthy and its length is not greater than 1) and then throws a `TypeError`
reading `msg.inputPaths[0].path`; no `JOB_FAILED` outcome is reported,
contrary to the spec's "length other than exactly one (including length
zero) yields a Failed outcome". -/
theorem c2_empty_inputs_throws :
    processImage "wt" ⟨"a1", "IMAGE_PROCESSING", some [], "out", "arg"⟩
        ⟨true, 10, true⟩ [] =
      .error "TypeError: cannot read path of undefined" := by
  rfl

/-- Claim C3 (code bug): a `JOB_CREATED` message whose job-type name is not
in `JOB_TYPES` makes the handler evaluate the undeclared identifier
`JOB_NOT_WHITELISTED`, which throws a `ReferenceError`; no "not permitted"
outcome is ever sent, contrary to the spec. -/
theorem c3_unknown_jobtype_throws :
    gatsbyMessageHandler "wt"
        (.jobCreated ⟨"a1", "VIDEO_PROCESSING", some [⟨"p.png"⟩], "out", "arg"⟩)
        ⟨true, 10, true⟩ [] =
      .error "ReferenceError: JOB_NOT_WHITELISTED is not defined" := by
  rfl

/-- Counterexample to claim C4 as stated: on a valid request whose
publish fails, `processImage` reports nothing to the producer (no
`JOB_FAILED`) and the correlation-table entry installed before the `try`
block is still present afterwards. -/
theorem c4_counterexample :
    processImage "wt" ⟨"a1", "IMAGE_PROCESSING", some [⟨"p.png"⟩], "out", "arg"⟩
        ⟨true, 10, false⟩ [] =
      .ok ⟨[("a1", ⟨"a1", "p.png", "out"⟩)], [], [], []⟩ := by
  rfl

/-- Claim C4 as amended: when the send fails with a transport error, the
error is only logged — no Failed outcome is reported to the producer, no
timer is started, no transport action completes, and the correlation-table
entry created before the send attempt remains in the table. -/
theorem c4_send_failure_logged_only (workerTopic : String) (msg : JobPayload)
    (env : DispatchEnv) (tbl : Table) (p : InputPath)
    (hin : msg.inputPaths = some [p]) (hread : env.readOk = true)
    (hsend : env.sendOk = false) :
    processImage workerTopic msg env tbl =
      .ok ⟨mapSet tbl msg.id ⟨msg.id, p.path, msg.outputDir⟩, [], [], []⟩ ∧
    mapHas (mapSet tbl msg.id ⟨msg.id, p.path, msg.outputDir⟩) msg.id
      = true := by
  constructor
  · unfold processImage
    rw [hin]
    simp [hread, hsend]
  · exact mapHas_mapSet_self tbl msg.id ⟨msg.id, p.path, msg.outputDir⟩

/-- Witness for C4 (amended) at a concrete failing send. -/
theorem c4_witness :
    processImage "wt" ⟨"a1", "IMAGE_PROCESSING", some [⟨"p.png"⟩], "out", "arg"⟩
        ⟨true, 10, false⟩ [("b1", ⟨"b1", "f", "o"⟩)] =
      .ok ⟨mapSet [("b1", ⟨"b1", "f", "o"⟩)] "a1" ⟨"a1", "p.png", "out"⟩,
           [], [], []⟩ ∧
    mapHas (mapSet [("b1", ⟨"b1", "f", "o"⟩)] "a1" ⟨"a1", "p.png", "out"⟩)
      "a1" = true :=
  c4_send_failure_logged_only "wt"
    ⟨"a1", "IMAGE_PROCESSING", some [⟨"p.png"⟩], "out", "arg"⟩
    ⟨true, 10, false⟩ [("b1", ⟨"b1", "f", "o"⟩)] ⟨"p.png"⟩ rfl rfl rfl

/-- Counterexample to claim C1 as stated: a `JOB_COMPLETED` worker response
whose finalization writes fail does NOT remove the correlation-table entry
(the `delete` sits inside the `try`, after the writes), so the subsequent
timeout firing for the same id is not a no-op — it reports a `JOB_FAILED`. -/
theorem c1_counterexample :
    (pubsubMessageHandler (.jobCompleted "a1" [⟨"op.png", "zz", "ar"⟩]) false
        [("a1", ⟨"a1", "f.png", "out"⟩)]).2 = [] ∧
    mapHas (pubsubMessageHandler (.jobCompleted "a1" [⟨"op.png", "zz", "ar"⟩])
        false [("a1", ⟨"a1", "f.png", "out"⟩)]).1 "a1" = true ∧
    (timeoutHandler "a1" "f.png"
        (pubsubMessageHandler (.jobCompleted "a1" [⟨"op.png", "zz", "ar"⟩])
          false [("a1", ⟨"a1", "f.png", "out"⟩)]).1).2 =
      [.jobFailed "a1" "File failed to process with timeout f.png"] :=
  ⟨rfl, rfl, rfl⟩

/-- Claim C1 as amended: for a dispatched job (its entry is in the table,
registered under the id the completion callback captured), a `JOB_FAILED`
worker response, or a `JOB_COMPLETED` response whose finalization succeeds,
arriving before the deadline resolves the job with exactly one
producer-visible outcome and removes the table entry; afterwards the timeout
firing for that id is a no-op and a duplicate response of either kind yields
no further producer-visible outcome. -/
theorem c1_response_resolves_once (tbl : Table) (id file err : String)
    (e : Entry) (out : List Transform)
    (hget : mapGet tbl id = some e) (hid : e.id = id) :
    pubsubMessageHandler (.jobFailed id err) true tbl =
      (mapDelete tbl id, [.jobFailed id err]) ∧
    pubsubMessageHandler (.jobCompleted id out) true tbl =
      (mapDelete tbl id,
       [.jobCompleted id (out.map (fun t => (t.outputPath, t.args)))]) ∧
    mapHas (mapDelete tbl id) id = false ∧
    timeoutHandler id file (mapDelete tbl id) = (mapDelete tbl id, []) ∧
    pubsubMessageHandler (.jobFailed id err) true (mapDelete tbl id) =
      (mapDelete tbl id, []) ∧
    pubsubMessageHandler (.jobCompleted id out) true (mapDelete tbl id) =
      (mapDelete tbl id, []) := by
  have hhas := mapHas_of_mapGet tbl id e hget
  have hdel := mapHas_mapDelete tbl id
  have hdelget := mapGet_eq_none (mapDelete tbl id) id hdel
  refine ⟨?_, ?_, hdel, ?_, ?_, ?_⟩
  · simp [pubsubMessageHandler, hhas]
  · simp [pubsubMessageHandler, hget, imageJobCallback, hid]
  · simp [timeoutHandler, hdel]
  · simp [pubsubMessageHandler, hdel]
  · simp [pubsubMessageHandler, hdelget]

/-- Witness for C1 (amended) at a concrete dispatched job. -/
theorem c1_witness :
    pubsubMessageHandler (.jobFailed "a1" "boom") true
        [("a1", ⟨"a1", "f.png", "out"⟩)] =
      (mapDelete [("a1", ⟨"a1", "f.png", "out"⟩)] "a1",
       [.jobFailed "a1" "boom"]) ∧
    pubsubMessageHandler (.jobCompleted "a1" [⟨"op.png", "zz", "ar"⟩]) true
        [("a1", ⟨"a1", "f.png", "out"⟩)] =
      (mapDelete [("a1", ⟨"a1", "f.png", "out"⟩)] "a1",
       [.jobCompleted "a1" [("op.png", "ar")]]) ∧
    mapHas (mapDelete [("a1", ⟨"a1", "f.png", "out"⟩)] "a1") "a1" = false ∧
    timeoutHandler "a1" "f.png"
        (mapDelete [("a1", ⟨"a1", "f.png", "out"⟩)] "a1") =
      (mapDelete [("a1", ⟨"a1", "f.png", "out"⟩)] "a1", []) ∧
    pubsubMessageHandler (.jobFailed "a1" "boom") true
        (mapDelete [("a1", ⟨"a1", "f.png", "out"⟩)] "a1") =
      (mapDelete [("a1", ⟨"a1", "f.png", "out"⟩)] "a1", []) ∧
    pubsubMessageHandler (.jobCompleted "a1" [⟨"op.png", "zz", "ar"⟩]) true
        (mapDelete [("a1", ⟨"a1", "f.png", "out"⟩)] "a1") =
      (mapDelete [("a1", ⟨"a1", "f.png", "out"⟩)] "a1", []) :=
  c1_response_resolves_once [("a1", ⟨"a1", "f.png", "out"⟩)] "a1" "f.png"
    "boom" ⟨"a1", "f.png", "out"⟩ [⟨"op.png", "zz", "ar"⟩] rfl rfl

/-- Counterexample to claim C5 as stated: after a `JOB_COMPLETED` worker
response whose finalization fails, the entry is still in the table and the
pending timeout later fires a `JOB_FAILED` for that id — the failure does
re-enter the correlation/timeout machinery. -/
theorem c5_counterexample :
    pubsubMessageHandler (.jobCompleted "b2" [⟨"o.jpg", "dd", "aa"⟩]) false
        [("b2", ⟨"b2", "img.jpg", "outdir"⟩)] =
      ([("b2", ⟨"b2", "img.jpg", "outdir"⟩)], []) ∧
    (timeoutHandler "b2" "img.jpg" [("b2", ⟨"b2", "img.jpg", "outdir"⟩)]).2 =
      [.jobFailed "b2" "File failed to process with timeout img.jpg"] :=
  ⟨rfl, rfl⟩

/-- Claim C5 as amended: a failure during finalization of a received worker
response is logged only — no producer-visible outcome is sent at that point
and the table is unchanged — but the correlation-table entry is NOT removed,
so the id is still considered in-flight and the pending timeout subsequently
fires a Failed outcome for it. -/
theorem c5_finalization_failure_leaves_entry (tbl : Table) (id file : String)
    (e : Entry) (out : List Transform) (hget : mapGet tbl id = some e) :
    pubsubMessageHandler (.jobCompleted id out) false tbl = (tbl, []) ∧
    mapHas tbl id = true ∧
    (timeoutHandler id file tbl).2 =
      [.jobFailed id ("File failed to process with timeout " ++ file)] := by
  have hhas := mapHas_of_mapGet tbl id e hget
  refine ⟨?_, hhas, ?_⟩
  · simp [pubsubMessageHandler, hget, imageJobCallback]
  · simp [timeoutHandler, hhas]

/-- Witness for C5 (amended) at a concrete in-flight job. -/
theorem c5_witness :
    pubsubMessageHandler (.jobCompleted "b2" [⟨"o.jpg", "dd", "aa"⟩]) false
        [("b2", ⟨"b2", "img.jpg", "od"⟩)] =
      ([("b2", ⟨"b2", "img.jpg", "od"⟩)], []) ∧
    mapHas [("b2", ⟨"b2", "img.jpg", "od"⟩)] "b2" = true ∧
    (timeoutHandler "b2" "img.jpg" [("b2", ⟨"b2", "img.jpg", "od"⟩)]).2 =
      [.jobFailed "b2" ("File failed to process with timeout " ++ "img.jpg")] :=
  c5_finalization_failure_leaves_entry [("b2", ⟨"b2", "img.jpg", "od"⟩)]
    "b2" "img.jpg" ⟨"b2", "img.jpg", "od"⟩ [⟨"o.jpg", "dd", "aa"⟩] rfl

/-- Claim C6: the timeout constant is 60,000 ms, and when the timer fires
for a job whose entry is still in the table (no response resolved it
earlier), exactly one `JOB_FAILED` outcome naming the timed-out file is
reported, the entry is removed, and any worker response (`JOB_COMPLETED` or
`JOB_FAILED`) arriving afterwards is discarded with no further
producer-visible outcome. -/
theorem c6_timeout_exactly_once (tbl : Table) (id file err : String)
    (out : List Transform) (fk : Bool) (hhas : mapHas tbl id = true) :
    MAX_JOB_TIME = 60000 ∧
    timeoutHandler id file tbl =
      (mapDelete tbl id,
       [.jobFailed id ("File failed to process with timeout " ++ file)]) ∧
    mapHas (mapDelete tbl id) id = false ∧
    pubsubMessageHandler (.jobCompleted id out) fk (mapDelete tbl id) =
      (mapDelete tbl id, []) ∧
    pubsubMessageHandler (.jobFailed id err) fk (mapDelete tbl id) =
      (mapDelete tbl id, []) := by
  have hdel := mapHas_mapDelete tbl id
  have hdelget := mapGet_eq_none (mapDelete tbl id) id hdel
  exact ⟨rfl, by simp [timeoutHandler, hhas], hdel,
         by simp [pubsubMessageHandler, hdelget],
         by simp [pubsubMessageHandler, hdel]⟩

/-- Witness for C6 at a concrete timed-out job. -/
theorem c6_witness :
    MAX_JOB_TIME = 60000 ∧
    timeoutHandler "a1" "f.png" [("a1", ⟨"a1", "f.png", "out"⟩)] =
      (mapDelete [("a1", ⟨"a1", "f.png", "out"⟩)] "a1",
       [.jobFailed "a1" ("File failed to process with timeout " ++ "f.png")]) ∧
    mapHas (mapDelete [("a1", ⟨"a1", "f.png", "out"⟩)] "a1") "a1" = false ∧
    pubsubMessageHandler (.jobCompleted "a1" [⟨"op.png", "zz", "ar"⟩]) true
        (mapDelete [("a1", ⟨"a1", "f.png", "out"⟩)] "a1") =
      (mapDelete [("a1", ⟨"a1", "f.png", "out"⟩)] "a1", []) ∧
    pubsubMessageHandler (.jobFailed "a1" "late") true
        (mapDelete [("a1", ⟨"a1", "f.png", "out"⟩)] "a1") =
      (mapDelete [("a1", ⟨"a1", "f.png", "out"⟩)] "a1", []) :=
  c6_timeout_exactly_once [("a1", ⟨"a1", "f.png", "out"⟩)] "a1" "f.png"
    "late" [⟨"op.png", "zz", "ar"⟩] true rfl

/-- Claim C7: the size threshold is 5,242,880 bytes; a serialized envelope
of size `S` is published directly to the worker topic when `S < 5242880`
and otherwise saved to the blob store under the bucket
`event-processing-<workerTopic>` with object key `event-<jobId>`; the
boundary case `S = 5242880` is deterministically staged. -/
theorem c7_transport_selection (workerTopic jobId : String) (size : Nat) :
    MAX_PUB_SUB_SIZE = 5242880 ∧
    (size < 5242880 →
      sendEnvelope workerTopic jobId size = .publish workerTopic size) ∧
    (5242880 ≤ size →
      sendEnvelope workerTopic jobId size =
        .blobSave ("event-processing-" ++ workerTopic)
          ("event-" ++ jobId)) ∧
    sendEnvelope workerTopic jobId 5242880 =
      .blobSave ("event-processing-" ++ workerTopic) ("event-" ++ jobId) := by
  refine ⟨rfl, ?_, ?_, ?_⟩
  · intro h
    have hlt : size < MAX_PUB_SUB_SIZE := by
      unfold MAX_PUB_SUB_SIZE
      omega
    simp [sendEnvelope, hlt]
  · intro h
    have hge : ¬ size < MAX_PUB_SUB_SIZE := by
      unfold MAX_PUB_SUB_SIZE
      omega
    simp [sendEnvelope, hge, bucketName]
  · have hge : ¬ (5242880 : Nat) < MAX_PUB_SUB_SIZE := by
      unfold MAX_PUB_SUB_SIZE
      omega
    simp [sendEnvelope, hge, bucketName]

/-- Witness for C7 on both sides of the threshold. -/
theorem c7_witness :
    (3 < 5242880 ∧ sendEnvelope "wt" "a1" 3 = .publish "wt" 3) ∧
    (5242880 ≤ 5242881 ∧
      sendEnvelope "wt" "a1" 5242881 =
        .blobSave ("event-processing-" ++ "wt") ("event-" ++ "a1")) ∧
    sendEnvelope "wt" "a1" 5242880 =
      .blobSave ("event-processing-" ++ "wt") ("event-" ++ "a1") :=
  ⟨⟨by norm_num, (c7_transport_selection "wt" "a1" 3).2.1 (by norm_num)⟩,
   ⟨by norm_num, (c7_transport_selection "wt" "a1" 5242881).2.2.1 (by norm_num)⟩,
   (c7_transport_selection "wt" "a1" 5242880).2.2.2⟩

/-- Counterexample to claim C8 as stated: registering an entry (via a second
`processImage` dispatch) for an id already present in the table does not
fail with a logic error — it succeeds silently, replacing the stored
callback with the new one. -/
theorem c8_counterexample :
    processImage "wt"
        ⟨"a1", "IMAGE_PROCESSING", some [⟨"new.png"⟩], "out2", "arg"⟩
        ⟨true, 10, true⟩ [("a1", ⟨"a1", "old.png", "out1"⟩)] =
      .ok ⟨[("a1", ⟨"a1", "new.png", "out2"⟩)], [],
           [.publish "wt" 10], [("a1", "new.png")]⟩ := by
  rfl

/-- Claim C8 as amended: `jobsInProcess.set` on an id that is already
present silently replaces the stored entry (JS `Map.set` semantics) rather
than failing; the at-most-one-entry-per-id invariant is preserved because
the key sequence of the table is unchanged — `get` afterwards returns the
newly stored value. -/
theorem c8_register_silently_overwrites (tbl : Table) (k : String) (v : Entry)
    (h : mapHas tbl k = true) :
    mapGet (mapSet tbl k v) k = some v ∧
    (mapSet tbl k v).map Prod.fst = tbl.map Prod.fst :=
  ⟨mapGet_mapSet_self tbl k v, keys_mapSet_of_has tbl k v h⟩

/-- Witness for C8 (amended) at a concrete duplicate registration. -/
theorem c8_witness :
    mapGet (mapSet [("a1", ⟨"a1", "old.png", "out1"⟩)] "a1"
        ⟨"a1", "new.png", "out2"⟩) "a1" = some ⟨"a1", "new.png", "out2"⟩ ∧
    (mapSet [("a1", ⟨"a1", "old.png", "out1"⟩)] "a1"
        ⟨"a1", "new.png", "out2"⟩).map Prod.fst =
      [("a1", (⟨"a1", "old.png", "out1"⟩ : Entry))].map Prod.fst :=
  c8_register_silently_overwrites [("a1", ⟨"a1", "old.png", "out1"⟩)] "a1"
    ⟨"a1", "new.png", "out2"⟩ rfl

/-- Claim C9 (implicit invariant): every code path that sends a `JOB_FAILED`
outcome leaves the table without that id at the moment of sending — the
validation-failure path of `processImage` sends the failure with the table
unchanged (it never inserts an entry), and both the worker-failure path of
`pubsubMessageHandler` and the timeout path delete the entry (the deletion
precedes the send in the source), so the resulting table no longer has the
id. -/
theorem c9_failed_send_table_invariant (workerTopic : String)
    (msg : JobPayload) (env : DispatchEnv) (tbl : Table)
    (id err file : String) (fk : Bool)
    (hbad : msg.inputPaths = none ∨
            ∃ l, msg.inputPaths = some l ∧ l.length > 1)
    (hhas : mapHas tbl id = true) :
    processImage workerTopic msg env tbl =
      .ok ⟨tbl, [.jobFailed msg.id "Wrong number of input paths"], [], []⟩ ∧
    pubsubMessageHandler (.jobFailed id err) fk tbl =
      (mapDelete tbl id, [.jobFailed id err]) ∧
    timeoutHandler id file tbl =
      (mapDelete tbl id,
       [.jobFailed id ("File failed to process with timeout " ++ file)]) ∧
    mapHas (mapDelete tbl id) id = false := by
  refine ⟨?_, ?_, ?_, mapHas_mapDelete tbl id⟩
  · rcases hbad with h | ⟨l, hl, hlen⟩
    · unfold processImage
      rw [h]
    · simp [processImage, hl, hlen]
  · simp [pubsubMessageHandler, hhas]
  · simp [timeoutHandler, hhas]

/-- Witness for C9 at a concrete two-input request and a concrete in-flight
job. -/
theorem c9_witness :
    processImage "wt" ⟨"a2", "IMAGE_PROCESSING", some [⟨"p"⟩, ⟨"q"⟩], "o", "g"⟩
        ⟨true, 10, true⟩ [("a1", ⟨"a1", "f", "o"⟩)] =
      .ok ⟨[("a1", ⟨"a1", "f", "o"⟩)],
           [.jobFailed "a2" "Wrong number of input paths"], [], []⟩ ∧
    pubsubMessageHandler (.jobFailed "a1" "boom") true
        [("a1", ⟨"a1", "f", "o"⟩)] =
      (mapDelete [("a1", ⟨"a1", "f", "o"⟩)] "a1", [.jobFailed "a1" "boom"]) ∧
    timeoutHandler "a1" "f" [("a1", ⟨"a1", "f", "o"⟩)] =
      (mapDelete [("a1", ⟨"a1", "f", "o"⟩)] "a1",
       [.jobFailed "a1" ("File failed to process with timeout " ++ "f")]) ∧
    mapHas (mapDelete [("a1", ⟨"a1", "f", "o"⟩)] "a1") "a1" = false :=
  c9_failed_send_table_invariant "wt"
    ⟨"a2", "IMAGE_PROCESSING", some [⟨"p"⟩, ⟨"q"⟩], "o", "g"⟩
    ⟨true, 10, true⟩ [("a1", ⟨"a1", "f", "o"⟩)] "a1" "boom" "f" true
    (Or.inr ⟨[⟨"p"⟩, ⟨"q"⟩], rfl, by norm_num⟩) rfl

end Build
